import Mathlib

/-!
Verification of `rclpy/parameter_client.py` (`AsyncParameterClient`).

The module is a façade over an external service transport: six service
clients are created at construction, and every public operation builds a
typed request and dispatches it through exactly one of those clients via
`call_async`, returning the resulting future.

Shallow embedding: the external collaborators (the node's `create_client`,
each client's `service_is_ready` / `wait_for_service`, and the YAML file
parser) are modelled as oracle functions passed in explicitly; the effect
of `call_async` is recorded as the list of dispatched (client, request)
pairs, and the client object after the call is returned so that frame
properties can be stated.  Wall-clock time (`time.time()` deltas) is
modelled by letting each underlying timed wait report the time it consumed
as a rational number.
-/

namespace Rclpy

/-- A service client handle as returned by `node.create_client`: identified
by the service name it was created with (the message type is determined by
which of the six fields of `AsyncParameterClient` holds it). -/
structure Client where
  srv_name : String
deriving DecidableEq, Repr

/-- A parameter value slot of an `rcl_interfaces.msg.ParameterValue`;
`notSet` is the state with no value (`PARAMETER_NOT_SET`). -/
inductive PValue where
  | notSet : PValue
  | boolValue (b : Bool) : PValue
  | integerValue (i : Int) : PValue
  | doubleValueBits (bits : Nat) : PValue
  | stringValue (s : String) : PValue
deriving DecidableEq, Repr

/-- The `rcl_interfaces.msg.ParameterType.PARAMETER_NOT_SET` constant. -/
def PARAMETER_NOT_SET : Nat := 0

/-- A serialized parameter descriptor, `rcl_interfaces.msg.Parameter`:
name, declared type tag and value. -/
structure ParameterMsg where
  name : String
  type_ : Nat
  value : PValue
deriving DecidableEq, Repr

/-- Modelled from the spec: the rich `rclpy.parameter.Parameter` value class
(its code is outside this module).  Per the spec it carries a name, a type
tag and a value, and converts to a descriptor with identical
name/type/value. -/
structure Parameter where
  name : String
  type_ : Nat
  value : PValue
deriving DecidableEq, Repr

/-- Modelled from the spec: `Parameter.to_parameter_msg` produces a
serialized descriptor with identical name/type/value. -/
def Parameter.to_parameter_msg (p : Parameter) : ParameterMsg :=
  { name := p.name, type_ := p.type_, value := p.value }

/-- Modelled from the spec: `Parameter(name=i)` with no type and no value —
"a descriptor with no value and no type represents a delete/unset intent";
the type tag defaults to `PARAMETER_NOT_SET` and the value to unset. -/
def Parameter.nameOnly (n : String) : Parameter :=
  { name := n, type_ := PARAMETER_NOT_SET, value := PValue.notSet }

/-- The duck-typed `Union[Parameter, ParameterMsg]` element accepted by
`set_parameters` / `set_parameters_atomically`, as a tagged union. -/
inductive ParamInput where
  | rich (p : Parameter) : ParamInput
  | msg (m : ParameterMsg) : ParamInput
deriving DecidableEq, Repr

/-- The per-element conversion in `set_parameters` and
`set_parameters_atomically`:
`i.to_parameter_msg() if isinstance(i, Parameter) else i`. -/
def ParamInput.normalize : ParamInput → ParameterMsg
  | .rich p => p.to_parameter_msg
  | .msg m => m

/-- `rcl_interfaces.srv.ListParameters.Request`: a prefixes field
(default empty) and a depth field. -/
structure ListParametersRequest where
  prefixes : List String
  depth : Int
deriving DecidableEq, Repr

/-- The outbound request of each of the six operations. -/
inductive Request where
  | listReq (r : ListParametersRequest) : Request
  | getReq (names : List String) : Request
  | getTypesReq (names : List String) : Request
  | describeReq (names : List String) : Request
  | setReq (parameters : List ParameterMsg) : Request
  | setAtomicallyReq (parameters : List ParameterMsg) : Request
deriving DecidableEq, Repr

/-- The pending operation returned by `call_async`, identified by the
request it carries. -/
structure Future where
  req : Request
deriving DecidableEq, Repr

/-- The `AsyncParameterClient` object: the remote node name and the six
client handles created in `__init__`. -/
structure AsyncParameterClient where
  remote_node_name : String
  get_parameter_client : Client
  list_parameter_client : Client
  set_parameter_client : Client
  get_parameter_types_client : Client
  describe_parameters_client : Client
  set_parameters_atomically_client : Client
deriving DecidableEq, Repr

/-- `AsyncParameterClient.__init__`: stores the remote node name and
creates the six clients with the fixed service-name suffixes. -/
def AsyncParameterClient.init (remote_node_name : String) : AsyncParameterClient :=
  { remote_node_name := remote_node_name
    get_parameter_client := { srv_name := remote_node_name ++ "/get_parameters" }
    list_parameter_client := { srv_name := remote_node_name ++ "/list_parameters" }
    set_parameter_client := { srv_name := remote_node_name ++ "/set_parameters" }
    get_parameter_types_client := { srv_name := remote_node_name ++ "/get_parameter_types" }
    describe_parameters_client := { srv_name := remote_node_name ++ "/describe_parameters" }
    set_parameters_atomically_client := { srv_name := remote_node_name ++ "/set_parameters_atomically" } }

/-- Result of one public call operation: the returned future, the trace of
outbound (client, request) dispatches it performed, and the client object
as it is after the call (for frame properties). -/
structure OpResult where
  future : Future
  dispatched : List (Client × Request)
  client : AsyncParameterClient
deriving DecidableEq, Repr

/-- `client.call_async(request)`: dispatches exactly one outbound message
through the given client handle and returns the future for it.  The
`AsyncParameterClient` state is untouched. -/
def call_async (c : AsyncParameterClient) (cl : Client) (r : Request) : OpResult :=
  { future := { req := r }, dispatched := [(cl, r)], client := c }

/-- `list_parameters(prefixes, depth)` (source defaults: `prefixes=None`,
`depth=1`): the request's prefixes field is assigned only when the Python
value is truthy (`if prefixes:`), so both `None` and `[]` leave it empty;
`depth` is copied unmodified. -/
def AsyncParameterClient.list_parameters (c : AsyncParameterClient)
    (prefixes : Option (List String)) (depth : Int) : OpResult :=
  let request : ListParametersRequest :=
    { prefixes :=
        match prefixes with
        | none => []
        | some ps => if ps.isEmpty then [] else ps
      depth := depth }
  call_async c c.list_parameter_client (Request.listReq request)

/-- `get_parameters(names)`: one `GetParameters.Request` carrying `names`,
dispatched through the get-parameters client. -/
def AsyncParameterClient.get_parameters (c : AsyncParameterClient)
    (names : List String) : OpResult :=
  call_async c c.get_parameter_client (Request.getReq names)

/-- `describe_parameters(names)`: one `DescribeParameters.Request` carrying
`names`, dispatched through the describe-parameters client. -/
def AsyncParameterClient.describe_parameters (c : AsyncParameterClient)
    (names : List String) : OpResult :=
  call_async c c.describe_parameters_client (Request.describeReq names)

/-- `get_parameter_types(names)`: one `GetParameterTypes.Request` carrying
`names`, dispatched through the get-parameter-types client. -/
def AsyncParameterClient.get_parameter_types (c : AsyncParameterClient)
    (names : List String) : OpResult :=
  call_async c c.get_parameter_types_client (Request.getTypesReq names)

/-- `set_parameters(parameters)`: each element is converted by
`ParamInput.normalize` and the batch is dispatched through the
set-parameters client. -/
def AsyncParameterClient.set_parameters (c : AsyncParameterClient)
    (parameters : List ParamInput) : OpResult :=
  call_async c c.set_parameter_client
    (Request.setReq (parameters.map ParamInput.normalize))

/-- `set_parameters_atomically(parameters)`: same element conversion as
`set_parameters`, dispatched through the set-parameters-atomically
client. -/
def AsyncParameterClient.set_parameters_atomically (c : AsyncParameterClient)
    (parameters : List ParamInput) : OpResult :=
  call_async c c.set_parameters_atomically_client
    (Request.setAtomicallyReq (parameters.map ParamInput.normalize))

/-- `delete_parameters(names)`: builds
`[Parameter(name=i).to_parameter_msg() for i in names]` and dispatches a
`SetParameters.Request` through the set-parameters client. -/
def AsyncParameterClient.delete_parameters (c : AsyncParameterClient)
    (names : List String) : OpResult :=
  call_async c c.set_parameter_client
    (Request.setReq (names.map fun i => (Parameter.nameOnly i).to_parameter_msg))

/-- `load_parameter_file(parameter_file, use_wildcard)`: the external
parser `parameter_dict_from_yaml_file` (an oracle here, modelled as an
ordered name-to-descriptor association list such as a Python dict) is
applied, and the list of its values is passed to `set_parameters`; its
future is returned. -/
def AsyncParameterClient.load_parameter_file (c : AsyncParameterClient)
    (parameter_dict_from_yaml_file : String → Bool → List (String × ParameterMsg))
    (parameter_file : String) (use_wildcard : Bool) : OpResult :=
  let param_dict := parameter_dict_from_yaml_file parameter_file use_wildcard
  c.set_parameters ((param_dict.map Prod.snd).map ParamInput.msg)

/-- `service_is_ready()`: `all` of the six underlying clients' readiness
probes, in source order (list, set, get, get-types, describe,
set-atomically); `ready` is the oracle for the underlying
`Client.service_is_ready`. -/
def AsyncParameterClient.service_is_ready (c : AsyncParameterClient)
    (ready : Client → Bool) : Bool :=
  ([ready c.list_parameter_client,
    ready c.set_parameter_client,
    ready c.get_parameter_client,
    ready c.get_parameter_types_client,
    ready c.describe_parameters_client,
    ready c.set_parameters_atomically_client]).all id

/-- The `client_wait_fns` list of `wait_for_service`, in source order. -/
def AsyncParameterClient.client_wait_fns (c : AsyncParameterClient) : List Client :=
  [c.list_parameter_client,
   c.set_parameter_client,
   c.get_parameter_client,
   c.get_parameter_types_client,
   c.describe_parameters_client,
   c.set_parameters_atomically_client]

/-- The timed loop of `wait_for_service`: at each client, first test
`timeout_sec < 0` (returning `False` without invoking the wait), then
invoke the underlying wait with the full remaining budget; if it returns
`False` return `False`, otherwise subtract the wall-clock time the wait
consumed (`time.time() - prev`) and continue.  The oracle `w` maps a
client and the budget it was given to the pair (result, time consumed).
Also returns the list of clients whose waits were actually invoked. -/
def waitLoop (w : Client → ℚ → Bool × ℚ) :
    List Client → ℚ → Bool × List Client
  | [], _ => (true, [])
  | cl :: rest, t =>
    if t < 0 then (false, [])
    else if (w cl t).1 then
      let r := waitLoop w rest (t - (w cl t).2)
      (r.1, cl :: r.2)
    else (false, [cl])

/-- `wait_for_service(timeout_sec)`: with `timeout_sec=None` the source
evaluates `all([fn() for fn in client_wait_fns])` — the list comprehension
invokes all six untimed waits before `all` is computed; with a numeric
timeout it runs the budgeted loop.  The oracle `w` maps a client and the
timeout it was passed (`none` = wait forever) to (result, time consumed).
Returns the result and the list of clients whose waits were invoked. -/
def AsyncParameterClient.wait_for_service (c : AsyncParameterClient)
    (w : Client → Option ℚ → Bool × ℚ) (timeout_sec : Option ℚ) :
    Bool × List Client :=
  match timeout_sec with
  | none => ((c.client_wait_fns.map fun cl => (w cl none).1).all id, c.client_wait_fns)
  | some t => waitLoop (fun cl q => w cl (some q)) c.client_wait_fns t

/-- A concrete client instance used to evaluate the theorems below. -/
def demoClient : AsyncParameterClient := AsyncParameterClient.init "demo_node"

/-- A wait oracle whose every underlying wait succeeds but consumes 5
seconds of wall-clock time regardless of the budget it was given. -/
def slowWait : Client → Option ℚ → Bool × ℚ := fun _ _ => (true, 5)

/-- The timed view of `slowWait`, as `wait_for_service` passes it to
`waitLoop`. -/
def slowWaitTimed : Client → ℚ → Bool × ℚ := fun cl q => slowWait cl (some q)

/-- A readiness oracle with every underlying service ready. -/
def allReady : Client → Bool := fun _ => true

/-- A wait oracle whose every underlying wait succeeds instantly. -/
def instantWait : Client → Option ℚ → Bool × ℚ := fun _ _ => (true, 0)

/-- C1: with a numeric timeout the six waits run sequentially on a shared
budget: a negative remaining budget fails before invoking the next wait, a
failed wait fails immediately with no further invocation, a successful wait
passes exactly the remaining budget (elapsed time subtracted) to the rest,
and if the first wait consumes more than the whole timeout the composite
call returns false with only the first (list) client's wait invoked. -/
theorem wait_timed_sequential_budget
    (v : Client → ℚ → Bool × ℚ) (w : Client → Option ℚ → Bool × ℚ)
    (c : AsyncParameterClient) (t : ℚ) (cl : Client) (rest : List Client) :
    (t < 0 → waitLoop v (cl :: rest) t = (false, [])) ∧
    (0 ≤ t → (v cl t).1 = false → waitLoop v (cl :: rest) t = (false, [cl])) ∧
    (0 ≤ t → (v cl t).1 = true →
      waitLoop v (cl :: rest) t =
        ((waitLoop v rest (t - (v cl t).2)).1,
          cl :: (waitLoop v rest (t - (v cl t).2)).2)) ∧
    (0 ≤ t → t < (w c.list_parameter_client (some t)).2 →
      c.wait_for_service w (some t) = (false, [c.list_parameter_client])) := by
  refine ⟨?_, ?_, ?_, ?_⟩
  · intro ht
    simp [waitLoop, ht]
  · intro ht hres
    simp [waitLoop, not_lt.mpr ht, hres]
  · intro ht hres
    simp [waitLoop, not_lt.mpr ht, hres]
  · intro ht hslow
    have hneg : t - (w c.list_parameter_client (some t)).2 < 0 := by linarith
    by_cases hres : (w c.list_parameter_client (some t)).1
    · simp [AsyncParameterClient.wait_for_service, AsyncParameterClient.client_wait_fns,
        waitLoop, not_lt.mpr ht, hres, hneg]
    · simp [AsyncParameterClient.wait_for_service, AsyncParameterClient.client_wait_fns,
        waitLoop, not_lt.mpr ht, hres]

/-- C1 witness: with a 3-second budget and a first wait that consumes 5
seconds, the composite wait is false and only the list client's wait was
invoked. -/
theorem wait_timed_sequential_budget_witness :
    demoClient.wait_for_service slowWait (some 3) =
      (false, [demoClient.list_parameter_client]) :=
  (wait_timed_sequential_budget slowWaitTimed slowWait demoClient 3
    demoClient.list_parameter_client []).2.2.2 (by decide) (by decide)

/-- C2: `service_is_ready` is true iff every one of the six underlying
clients reports ready. -/
theorem service_is_ready_iff_all_six
    (c : AsyncParameterClient) (ready : Client → Bool) :
    c.service_is_ready ready = true ↔
      ready c.list_parameter_client = true ∧
      ready c.set_parameter_client = true ∧
      ready c.get_parameter_client = true ∧
      ready c.get_parameter_types_client = true ∧
      ready c.describe_parameters_client = true ∧
      ready c.set_parameters_atomically_client = true := by
  simp [AsyncParameterClient.service_is_ready, List.all, Bool.and_eq_true]

/-- C2 witness: with every probe ready, the composite readiness is true. -/
theorem service_is_ready_iff_all_six_witness :
    demoClient.service_is_ready allReady = true :=
  (service_is_ready_iff_all_six demoClient allReady).mpr
    ⟨rfl, rfl, rfl, rfl, rfl, rfl⟩

/-- C3: `delete_parameters` equals `set_parameters` applied to the
name-only descriptors, and dispatches through the set-parameters client a
batch of descriptors carrying each name with no type and no value, in
order. -/
theorem delete_parameters_refines_set
    (c : AsyncParameterClient) (names : List String) :
    c.delete_parameters names =
      c.set_parameters (names.map fun n => ParamInput.rich (Parameter.nameOnly n)) ∧
    (c.delete_parameters names).dispatched =
      [(c.set_parameter_client,
        Request.setReq (names.map fun n =>
          { name := n, type_ := PARAMETER_NOT_SET, value := PValue.notSet }))] := by
  constructor
  · simp [AsyncParameterClient.delete_parameters, AsyncParameterClient.set_parameters,
      call_async, List.map_map, Function.comp_def, ParamInput.normalize]
  · simp [AsyncParameterClient.delete_parameters, call_async,
      Parameter.to_parameter_msg, Parameter.nameOnly]

/-- C4: both set operations dispatch the input sequence mapped elementwise
by `normalize`, which is the identity on already-serialized descriptors and
repackages a rich parameter into a descriptor with identical
name/type/value; the map preserves length (and, being a map, order). -/
theorem set_parameters_normalization
    (c : AsyncParameterClient) (parameters : List ParamInput)
    (ms : List ParameterMsg) :
    (c.set_parameters parameters).dispatched =
      [(c.set_parameter_client,
        Request.setReq (parameters.map ParamInput.normalize))] ∧
    (c.set_parameters_atomically parameters).dispatched =
      [(c.set_parameters_atomically_client,
        Request.setAtomicallyReq (parameters.map ParamInput.normalize))] ∧
    (ms.map ParamInput.msg).map ParamInput.normalize = ms ∧
    (∀ p : Parameter, ParamInput.normalize (ParamInput.rich p) =
      { name := p.name, type_ := p.type_, value := p.value }) ∧
    (parameters.map ParamInput.normalize).length = parameters.length := by
  refine ⟨rfl, rfl, ?_, fun p => rfl, by simp⟩
  simp [List.map_map, Function.comp_def, ParamInput.normalize]

/-- C5: with no timeout, all six waits are invoked unconditionally and the
result is true iff every one of them returned true. -/
theorem wait_none_all_invoked
    (c : AsyncParameterClient) (w : Client → Option ℚ → Bool × ℚ) :
    (c.wait_for_service w none).2 = c.client_wait_fns ∧
    ((c.wait_for_service w none).1 = true ↔
      (w c.list_parameter_client none).1 = true ∧
      (w c.set_parameter_client none).1 = true ∧
      (w c.get_parameter_client none).1 = true ∧
      (w c.get_parameter_types_client none).1 = true ∧
      (w c.describe_parameters_client none).1 = true ∧
      (w c.set_parameters_atomically_client none).1 = true) := by
  constructor
  · rfl
  · simp [AsyncParameterClient.wait_for_service, AsyncParameterClient.client_wait_fns,
      List.all, Bool.and_eq_true]

/-- C5 witness: with every untimed wait returning true, the unbounded
composite wait is true (and the invoked list is always all six clients). -/
theorem wait_none_all_invoked_witness :
    (demoClient.wait_for_service instantWait none).2 = demoClient.client_wait_fns ∧
    (demoClient.wait_for_service instantWait none).1 = true :=
  ⟨(wait_none_all_invoked demoClient instantWait).1,
    (wait_none_all_invoked demoClient instantWait).2.mpr
      ⟨rfl, rfl, rfl, rfl, rfl, rfl⟩⟩

/-- C6: `get_parameters` and `get_parameter_types` each dispatch exactly
one request, through their respective fixed client, with the names field
equal to the input unmodified. -/
theorem get_and_types_single_dispatch
    (c : AsyncParameterClient) (names : List String) :
    (c.get_parameters names).dispatched =
      [(c.get_parameter_client, Request.getReq names)] ∧
    (c.get_parameter_types names).dispatched =
      [(c.get_parameter_types_client, Request.getTypesReq names)] :=
  ⟨rfl, rfl⟩

/-- C7: `list_parameters` with `None` prefixes and with an empty prefixes
list produce identical calls (prefixes left empty in the request), and the
depth argument — any integer, negative included — is copied into the
request unmodified. -/
theorem list_parameters_prefixes_depth
    (c : AsyncParameterClient) (d : Int) :
    c.list_parameters none d = c.list_parameters (some []) d ∧
    (c.list_parameters none d).dispatched =
      [(c.list_parameter_client,
        Request.listReq { prefixes := [], depth := d })] :=
  ⟨rfl, rfl⟩

/-- C8: `load_parameter_file` is the external parser composed with
`set_parameters`: the parsed mapping's values go through exactly one
batched `set_parameters` call whose future is returned. -/
theorem load_parameter_file_refines_set
    (c : AsyncParameterClient)
    (parse : String → Bool → List (String × ParameterMsg))
    (path : String) (wildcard : Bool) :
    c.load_parameter_file parse path wildcard =
      c.set_parameters (((parse path wildcard).map Prod.snd).map ParamInput.msg) ∧
    (c.load_parameter_file parse path wildcard).dispatched.length = 1 ∧
    (c.load_parameter_file parse path wildcard).future =
      (c.set_parameters
        (((parse path wildcard).map Prod.snd).map ParamInput.msg)).future :=
  ⟨rfl, rfl, rfl⟩

/-- C9: every call operation dispatches exactly one outbound message and
returns the client state unchanged (all six handles and the remote node
name untouched); construction assigns each handle its fixed service name
derived from the remote node name. -/
theorem operations_frame_and_single_dispatch
    (c : AsyncParameterClient) (r : String) :
    (∀ ps d, (c.list_parameters ps d).client = c ∧
      (c.list_parameters ps d).dispatched.length = 1) ∧
    (∀ ns, (c.get_parameters ns).client = c ∧
      (c.get_parameters ns).dispatched.length = 1) ∧
    (∀ ns, (c.get_parameter_types ns).client = c ∧
      (c.get_parameter_types ns).dispatched.length = 1) ∧
    (∀ ns, (c.describe_parameters ns).client = c ∧
      (c.describe_parameters ns).dispatched.length = 1) ∧
    (∀ ps, (c.set_parameters ps).client = c ∧
      (c.set_parameters ps).dispatched.length = 1) ∧
    (∀ ps, (c.set_parameters_atomically ps).client = c ∧
      (c.set_parameters_atomically ps).dispatched.length = 1) ∧
    (∀ ns, (c.delete_parameters ns).client = c ∧
      (c.delete_parameters ns).dispatched.length = 1) ∧
    ((AsyncParameterClient.init r).remote_node_name = r ∧
      (AsyncParameterClient.init r).get_parameter_client =
        { srv_name := r ++ "/get_parameters" } ∧
      (AsyncParameterClient.init r).list_parameter_client =
        { srv_name := r ++ "/list_parameters" } ∧
      (AsyncParameterClient.init r).set_parameter_client =
        { srv_name := r ++ "/set_parameters" } ∧
      (AsyncParameterClient.init r).get_parameter_types_client =
        { srv_name := r ++ "/get_parameter_types" } ∧
      (AsyncParameterClient.init r).describe_parameters_client =
        { srv_name := r ++ "/describe_parameters" } ∧
      (AsyncParameterClient.init r).set_parameters_atomically_client =
        { srv_name := r ++ "/set_parameters_atomically" }) :=
  ⟨fun _ _ => ⟨rfl, rfl⟩, fun _ => ⟨rfl, rfl⟩, fun _ => ⟨rfl, rfl⟩,
    fun _ => ⟨rfl, rfl⟩, fun _ => ⟨rfl, rfl⟩, fun _ => ⟨rfl, rfl⟩,
    fun _ => ⟨rfl, rfl⟩, rfl, rfl, rfl, rfl, rfl, rfl, rfl⟩

/-- C10: a negative timeout makes `wait_for_service` return false
immediately, before any underlying wait is invoked. -/
theorem wait_negative_timeout_no_invocation
    (c : AsyncParameterClient) (w : Client → Option ℚ → Bool × ℚ)
    (t : ℚ) (ht : t < 0) :
    c.wait_for_service w (some t) = (false, []) := by
  simp [AsyncParameterClient.wait_for_service, AsyncParameterClient.client_wait_fns,
    waitLoop, ht]

/-- C10 witness: timeout -1 yields false with no underlying wait
invoked, even though every underlying wait would succeed instantly. -/
theorem wait_negative_timeout_no_invocation_witness :
    demoClient.wait_for_service instantWait (some (-1)) = (false, []) :=
  wait_negative_timeout_no_invocation demoClient instantWait (-1) (by decide)

end Rclpy
